import Mathlib

/-!
Shallow embedding of the `dc` repository's scheduler core
(`src/scheduler/task_scheduler.py`, `src/models/task.py`,
`src/services/task_service.py`, `src/services/crawler_service.py`)
and proofs of the specification's testable properties about it.

Wall-clock timestamps (`datetime.now()` in the Python source) are modelled
as `Nat` values (seconds) passed explicitly to each operation.
-/

namespace DC

/-! ## TaskStatistics (task_scheduler.py, class TaskStatistics) -/

/-- One entry of `TaskStatistics.execution_history`
(built by `TaskStatistics._add_to_history`). -/
structure HistoryEntry where
  job_id : String
  job_name : Option String
  status : String
  timestamp : Nat
  details : Option String
deriving Repr, DecidableEq

/-- State of a `TaskStatistics` instance (task_scheduler.py lines 50-60). -/
structure TaskStatistics where
  success_count : Nat
  failure_count : Nat
  skipped_count : Nat
  total_executions : Nat
  last_execution_time : Option Nat
  last_success_time : Option Nat
  last_failure_time : Option Nat
  execution_history : List HistoryEntry
deriving Repr, DecidableEq

/-- `TaskStatistics._max_history_size` (at most 1000 history entries). -/
def maxHistorySize : Nat := 1000

/-- `TaskStatistics.__init__`: the fresh instance. -/
def TaskStatistics.init : TaskStatistics :=
  { success_count := 0
    failure_count := 0
    skipped_count := 0
    total_executions := 0
    last_execution_time := none
    last_success_time := none
    last_failure_time := none
    execution_history := [] }

/-- `TaskStatistics._add_to_history`: append an entry, then drop the oldest
entry when the buffer exceeds `_max_history_size`. -/
def TaskStatistics.add_to_history (s : TaskStatistics) (job_id : String)
    (job_name : Option String) (status : String) (timestamp : Nat)
    (details : Option String) : TaskStatistics :=
  let hist := s.execution_history ++ [⟨job_id, job_name, status, timestamp, details⟩]
  { s with execution_history := if hist.length > maxHistorySize then hist.drop 1 else hist }

/-- `TaskStatistics.record_success(job_id, job_name)` at time `t`. -/
def TaskStatistics.record_success (s : TaskStatistics) (job_id : String)
    (job_name : Option String) (t : Nat) : TaskStatistics :=
  let s := { s with
    success_count := s.success_count + 1
    total_executions := s.total_executions + 1
    last_execution_time := some t
    last_success_time := some t }
  s.add_to_history job_id job_name "success" t none

/-- `TaskStatistics.record_failure(job_id, job_name, error)` at time `t`. -/
def TaskStatistics.record_failure (s : TaskStatistics) (job_id : String)
    (job_name : Option String) (error : Option String) (t : Nat) : TaskStatistics :=
  let s := { s with
    failure_count := s.failure_count + 1
    total_executions := s.total_executions + 1
    last_execution_time := some t
    last_failure_time := some t }
  s.add_to_history job_id job_name "failure" t error

/-- `TaskStatistics.record_skipped(job_id, job_name, reason)` at time `t`. -/
def TaskStatistics.record_skipped (s : TaskStatistics) (job_id : String)
    (job_name : Option String) (reason : Option String) (t : Nat) : TaskStatistics :=
  let s := { s with
    skipped_count := s.skipped_count + 1
    total_executions := s.total_executions + 1
    last_execution_time := some t }
  s.add_to_history job_id job_name "skipped" t reason

/-- `TaskStatistics.reset`: zero every counter and clear the history. -/
def TaskStatistics.reset (_s : TaskStatistics) : TaskStatistics :=
  TaskStatistics.init

/-- `TaskStatistics._calculate_success_rate` (exact rational value of the
Python float computation). -/
def TaskStatistics.calculate_success_rate (s : TaskStatistics) : ℚ :=
  if s.total_executions = 0 then 0
  else (s.success_count : ℚ) / (s.total_executions : ℚ)

/-- `TaskStatistics._calculate_failure_rate`. -/
def TaskStatistics.calculate_failure_rate (s : TaskStatistics) : ℚ :=
  if s.total_executions = 0 then 0
  else (s.failure_count : ℚ) / (s.total_executions : ℚ)

/-- `TaskStatistics._calculate_skipped_rate`. -/
def TaskStatistics.calculate_skipped_rate (s : TaskStatistics) : ℚ :=
  if s.total_executions = 0 then 0
  else (s.skipped_count : ℚ) / (s.total_executions : ℚ)

/-- The operations that mutate a `TaskStatistics` instance: the three
event-pipeline recorders plus the administrative reset. -/
inductive StatOp where
  | success (job_id : String) (job_name : Option String) (t : Nat)
  | failure (job_id : String) (job_name : Option String) (error : Option String) (t : Nat)
  | skipped (job_id : String) (job_name : Option String) (reason : Option String) (t : Nat)
  | reset
deriving Repr, DecidableEq

/-- Apply one mutation to a `TaskStatistics` state. -/
def applyStatOp (s : TaskStatistics) : StatOp → TaskStatistics
  | .success jid jn t => s.record_success jid jn t
  | .failure jid jn err t => s.record_failure jid jn err t
  | .skipped jid jn r t => s.record_skipped jid jn r t
  | .reset => s.reset

/-- Run a finite sequence of statistics operations from a fresh instance. -/
def runStatOps (ops : List StatOp) : TaskStatistics :=
  ops.foldl applyStatOp TaskStatistics.init

/-- The counter invariant of `TaskStatistics`. -/
def statsInv (s : TaskStatistics) : Prop :=
  s.total_executions = s.success_count + s.failure_count + s.skipped_count

/-! ## Task model (models/task.py, class Task) -/

/-- A row of the `tasks` table (models/task.py lines 26-67).
`created_at`/`updated_at` timestamps are modelled as `Nat` seconds. -/
structure Task where
  id : Nat
  url : String
  method : String
  body : Option String
  total_num : Nat
  visited_num : Nat
  status : String
  timeout : Nat
  retry_count : Nat
deriving Repr, DecidableEq

/-- `Task.increment_visited(count)`: `self.visited_num += count`
(`count` defaults to 1 at every call site). -/
def Task.increment_visited (t : Task) (count : Nat := 1) : Task :=
  { t with visited_num := t.visited_num + count }

/-- `Task.increment_retry`: `self.retry_count += 1`. -/
def Task.increment_retry (t : Task) : Task :=
  { t with retry_count := t.retry_count + 1 }

/-- `Task.update_status(status)`. -/
def Task.update_status (t : Task) (status : String) : Task :=
  { t with status := status }

/-- `Task.is_completed` (models/task.py lines 163-171): true iff the status
field equals the string "completed". -/
def Task.is_completed (t : Task) : Bool :=
  t.status == "completed"

/-- `Task.is_pending` (models/task.py lines 193-201): true iff the status
field equals the string "pending". -/
def Task.is_pending (t : Task) : Bool :=
  t.status == "pending"

/-- The filter of the pending-task query in
`TaskScheduler._execute_pending_tasks_internal` (task_scheduler.py
lines 1159-1162): `visited_num < total_num AND total_num > 0`. -/
def pendingQuery (t : Task) : Bool :=
  t.visited_num < t.total_num && 0 < t.total_num

/-- The filter of `TaskService.get_completed_tasks` (task_service.py
lines 315-318): `visited_num >= total_num AND total_num > 0`. -/
def completedQuery (t : Task) : Bool :=
  t.total_num ≤ t.visited_num && 0 < t.total_num

/-- Modelled from the spec (section 3, WorkItem): the count-based completion
predicate, "complete iff visited_count >= total_count and total_count > 0".
Stated from the spec's words so it can be compared with the checks the
source actually performs. -/
def specCountComplete (t : Task) : Bool :=
  t.total_num ≤ t.visited_num && 0 < t.total_num

/-! ## Fetch-and-save collaborator (services/crawler_service.py) -/

/-- The `status` field of the dict returned by
`CrawlerService.crawl_address` / `crawl_and_save`. -/
inductive CrawlStatus where
  | success
  | error
deriving Repr, DecidableEq

/-- The observable shape of the dict returned by
`CrawlerService.crawl_and_save` (crawler_service.py lines 496-530):
`status` is the crawl status; when `status == 'success'`, `saved` records
whether `save_address_info` stored the row (`saved=True`) or returned
`None` (`saved=False`, `save_error` set); `error` is set on crawl failure. -/
structure CrawlResult where
  status : CrawlStatus
  saved : Bool
  error : Option String
deriving Repr, DecidableEq

/-- Number of records actually stored by the collaborator for one
`crawl_and_save` call: `save_address_info` adds exactly one `AddressInfo`
row when it succeeds (crawler_service.py lines 477-482), and it is only
attempted when the crawl status is success. -/
def CrawlResult.stored_records (r : CrawlResult) : Nat :=
  if r.status == CrawlStatus.success && r.saved then 1 else 0

/-- Outcome of one per-item attempt inside the executor loop: either
`crawl_and_save` returned a result dict, or an unexpected exception was
raised during the attempt (caught at task_scheduler.py lines 1257-1264). -/
inductive AttemptOutcome where
  | result (r : CrawlResult)
  | exn (msg : String)
deriving Repr, DecidableEq

/-! ## PendingWorkExecutor (task_scheduler.py,
`TaskScheduler._execute_pending_tasks_internal`) -/

/-- Result of processing one pending task in the executor loop
(task_scheduler.py lines 1216-1264): the updated task row, the updated
statistics, and whether `executed_count` was incremented (it is not
incremented on the unexpected-exception path, which `continue`s). -/
structure ItemStep where
  task : Task
  stats : TaskStatistics
  counted : Bool
  completionLogged : Bool
deriving Repr

/-- One iteration of the executor's per-task loop (task_scheduler.py
lines 1216-1264) at wall-clock time `now`:
on `result['status'] == 'success'` increment `visited_num` and record a
statistics success keyed by `"task_" ++ id`; on any other result status
increment `retry_count` and record a failure with the result's error
message (default `"未知错误"`); on an unexpected exception increment
`retry_count`, record a failure with the exception message, and continue
without counting the item. `completionLogged` records whether the success
branch emitted the completion log line, guarded by `if task.is_completed:`
(task_scheduler.py line 1243). -/
def execTaskStep (stats : TaskStatistics) (t : Task) (outcome : AttemptOutcome)
    (now : Nat) : ItemStep :=
  match outcome with
  | .result r =>
    if r.status == CrawlStatus.success then
      let t := t.increment_visited
      let stats := stats.record_success ("task_" ++ toString t.id) (some t.url) now
      ⟨t, stats, true, t.is_completed⟩
    else
      let t := t.increment_retry
      let stats := stats.record_failure ("task_" ++ toString t.id) (some t.url)
        (some (r.error.getD "未知错误")) now
      ⟨t, stats, true, false⟩
  | .exn msg =>
    let t := t.increment_retry
    let stats := stats.record_failure ("task_" ++ toString t.id) (some t.url)
      (some msg) now
    ⟨t, stats, false, false⟩

/-- Result of processing the store rows of one pass. -/
structure ItemsResult where
  store : List Task
  stats : TaskStatistics
  count : Nat
deriving Repr

/-- The executor's per-task loop over the store at time `now`. The source
first queries the rows matching `pendingQuery` and then iterates them,
committing each row's mutation in place; here the store rows are traversed
in order, processing exactly the rows matching `pendingQuery` (the filter
preserves order, so the sequential statistics threading is identical) and
leaving every other row untouched. `oracle` supplies each task's
`crawl_and_save` outcome. -/
def runPassItems (oracle : Task → AttemptOutcome) (now : Nat) :
    List Task → TaskStatistics → ItemsResult
  | [], stats => ⟨[], stats, 0⟩
  | t :: rest, stats =>
    if pendingQuery t then
      let step := execTaskStep stats t (oracle t) now
      let tail := runPassItems oracle now rest step.stats
      ⟨step.task :: tail.store, tail.stats,
        (if step.counted then 1 else 0) + tail.count⟩
    else
      let tail := runPassItems oracle now rest stats
      ⟨t :: tail.store, tail.stats, tail.count⟩

/-- Result of one full executor pass. -/
structure PassResult where
  store : List Task
  stats : TaskStatistics
  lastReport : Option Nat
  count : Nat
  reportEmitted : Bool
deriving Repr

/-- The all-complete condition of the empty-pending branch
(task_scheduler.py lines 1170-1174): there is at least one sized row
(`total_num > 0`) and none of the sized rows still has status `pending`. -/
def allSizedDone (store : List Task) : Bool :=
  let all_tasks := store.filter (fun t => 0 < t.total_num)
  !all_tasks.isEmpty && (all_tasks.filter (fun t => t.is_pending)).isEmpty

/-- The summary-report cooldown check (task_scheduler.py lines 1175-1180):
report when no report was ever emitted or more than 300 seconds (5
minutes) have passed since the last one. -/
def shouldReport (lastReport : Option Nat) (now : Nat) : Bool :=
  match lastReport with
  | none => true
  | some lr => 300 < now - lr

/-- `TaskScheduler._execute_pending_tasks_internal` (task_scheduler.py
lines 1143-1271) at wall-clock time `now`, with `lastReport` the value of
`self._last_all_completed_report_time`: query the rows matching
`pendingQuery`; if none, check `allSizedDone` and, when the 300-second
cooldown has elapsed, emit the all-complete summary report and stamp the
cooldown; otherwise process each pending row sequentially and return the
number of rows attempted. -/
def execPendingTasksInternal (store : List Task) (oracle : Task → AttemptOutcome)
    (stats : TaskStatistics) (lastReport : Option Nat) (now : Nat) : PassResult :=
  let pending := store.filter pendingQuery
  if pending.isEmpty then
    if allSizedDone store then
      if shouldReport lastReport now then ⟨store, stats, some now, 0, true⟩
      else ⟨store, stats, lastReport, 0, false⟩
    else ⟨store, stats, lastReport, 0, false⟩
  else
    let r := runPassItems oracle now store stats
    ⟨r.store, r.stats, lastReport, r.count, false⟩

/-- `n` consecutive executor passes over the same store (each firing of the
auto-execution job runs one pass), all at time `now` with oracle `oracle`. -/
def iteratePasses (oracle : Task → AttemptOutcome) (now : Nat) :
    Nat → List Task → TaskStatistics → Option Nat → PassResult
  | 0, store, stats, lastReport => ⟨store, stats, lastReport, 0, false⟩
  | n + 1, store, stats, lastReport =>
    let p := execPendingTasksInternal store oracle stats lastReport now
    iteratePasses oracle now n p.store p.stats p.lastReport

/-! ## Job management (task_scheduler.py, class TaskScheduler)

`TaskScheduler` wraps an APScheduler `BackgroundScheduler`. The underlying
APScheduler job store is modelled from its contract as used by the wrapper
(and restated in spec section 4.2): `add_job` with an already-registered id
raises a conflicting-id error, and `remove_job`/`pause_job`/`resume_job`/
`modify_job` with an unknown id raise a lookup error. The wrapper methods
under proof are the repository's own code. Job ids are modelled as explicit
strings (the APScheduler auto-generated-id path for `id=None` is not
exercised by the claims). -/

/-- A trigger value produced by `TaskScheduler._create_trigger`
(task_scheduler.py lines 801-821): date, interval or cron. -/
inductive TriggerSpec where
  | date
  | interval (seconds : Nat)
  | cron
deriving Repr, DecidableEq

/-- The `trigger` argument of `TaskScheduler.add_job`: a trigger instance,
a trigger-kind string, or omitted. -/
inductive TriggerArg where
  | inst (t : TriggerSpec)
  | str (kind : String) (seconds : Nat)
  | omitted
deriving Repr, DecidableEq

/-- `TaskScheduler._create_trigger(trigger_type, **kwargs)`: returns a
trigger for the strings "date", "interval", "cron" and raises `ValueError`
(modelled as `none`) for any other string. -/
def create_trigger (trigger_type : String) (seconds : Nat) : Option TriggerSpec :=
  if trigger_type == "date" then some TriggerSpec.date
  else if trigger_type == "interval" then some (TriggerSpec.interval seconds)
  else if trigger_type == "cron" then some TriggerSpec.cron
  else none

/-- Resolution of the `trigger` argument inside `add_job` (task_scheduler.py
lines 675-681): a string is turned into a trigger via `_create_trigger`
(raising for an unknown kind), an instance is kept, an omitted trigger is
left absent. -/
def resolveTrigger : TriggerArg → Option (Option TriggerSpec)
  | .inst t => some (some t)
  | .str kind seconds =>
    match create_trigger kind seconds with
    | some t => some (some t)
    | none => none
  | .omitted => some none

/-- A registered job handle (the APScheduler `Job` attributes the wrapper
sets: id, name, trigger, concurrency policy, paused flag for
`pause_job`/`resume_job`). -/
structure Job where
  id : String
  name : Option String
  trigger : Option TriggerSpec
  misfire_grace_time : Option Nat
  coalesce : Option Bool
  max_instances : Option Nat
  paused : Bool
deriving Repr, DecidableEq

/-- The arguments of one `TaskScheduler.add_job` call. -/
structure AddJobArgs where
  id : String
  name : Option String
  trigger : TriggerArg
  misfire_grace_time : Option Nat
  coalesce : Option Bool
  max_instances : Option Nat
deriving Repr, DecidableEq

/-- The scheduler-level state relevant to job management:
`_is_running`, the APScheduler job store, and the auto-execution
configuration read by `start` (task_scheduler.py lines 372-393, 446-478). -/
structure SchedulerState where
  is_running : Bool
  jobs : List Job
  auto_execution_enabled : Bool
  auto_execution_interval : Nat
  auto_execution_job_id : Option String
deriving Repr, DecidableEq

/-- The typed errors of the spec's error taxonomy (section 7). The wrapper
methods raise `RuntimeError` messages which the spec names
`SchedulerNotRunningError` / `AlreadyRunningError`; the other two
constructors exist so that the duplicate-id and unknown-id claims are
statable. -/
inductive SchedulerError where
  | schedulerNotRunning
  | alreadyRunning
  | duplicateJobId
  | jobNotFound
deriving Repr, DecidableEq

/-- Whether a job id is registered in the APScheduler job store. -/
def SchedulerState.hasJob (st : SchedulerState) (job_id : String) : Bool :=
  st.jobs.any (fun j => j.id == job_id)

/-- `TaskScheduler.add_job` (task_scheduler.py lines 619-695): raises
`RuntimeError` ("调度器未运行，无法添加作业", the spec's
`SchedulerNotRunningError`) when `_is_running` is false, before the `try`
block; inside the `try`, every exception — the `ValueError` of an invalid
trigger string and APScheduler's conflicting-id error alike — is caught,
logged, and turned into a `None` return with the job store unchanged;
otherwise the job is inserted and its handle returned. -/
def add_job (st : SchedulerState) (args : AddJobArgs) :
    Except SchedulerError (SchedulerState × Option Job) :=
  if !st.is_running then Except.error SchedulerError.schedulerNotRunning
  else
    match resolveTrigger args.trigger with
    | none => Except.ok (st, none)
    | some trig =>
      if st.hasJob args.id then Except.ok (st, none)
      else
        let job : Job :=
          { id := args.id
            name := args.name
            trigger := trig
            misfire_grace_time := args.misfire_grace_time
            coalesce := args.coalesce
            max_instances := args.max_instances
            paused := false }
        Except.ok ({ st with jobs := st.jobs ++ [job] }, some job)

/-- `TaskScheduler.remove_job` (task_scheduler.py lines 697-713): every
exception from the underlying `remove_job` — in particular the lookup
error for an unknown id — is caught and turned into a `False` return. -/
def remove_job (st : SchedulerState) (job_id : String) :
    Except SchedulerError (SchedulerState × Bool) :=
  if st.hasJob job_id then
    Except.ok ({ st with jobs := st.jobs.filter (fun j => !(j.id == job_id)) }, true)
  else Except.ok (st, false)

/-- `TaskScheduler.pause_job` (task_scheduler.py lines 715-731): an unknown
id yields `False`, not an exception. -/
def pause_job (st : SchedulerState) (job_id : String) :
    Except SchedulerError (SchedulerState × Bool) :=
  if st.hasJob job_id then
    let jobs := st.jobs.map (fun j => if j.id == job_id then { j with paused := true } else j)
    Except.ok ({ st with jobs := jobs }, true)
  else Except.ok (st, false)

/-- `TaskScheduler.resume_job` (task_scheduler.py lines 733-749): an
unknown id yields `False`, not an exception. -/
def resume_job (st : SchedulerState) (job_id : String) :
    Except SchedulerError (SchedulerState × Bool) :=
  if st.hasJob job_id then
    let jobs := st.jobs.map (fun j => if j.id == job_id then { j with paused := false } else j)
    Except.ok ({ st with jobs := jobs }, true)
  else Except.ok (st, false)

/-- `TaskScheduler.modify_job` (task_scheduler.py lines 778-799): applies
the keyword changes (modelled as a function on the job's attributes) to the
registered job; an unknown id yields `False`, not an exception. -/
def modify_job (st : SchedulerState) (job_id : String) (changes : Job → Job) :
    Except SchedulerError (SchedulerState × Bool) :=
  if st.hasJob job_id then
    let jobs := st.jobs.map (fun j => if j.id == job_id then changes j else j)
    Except.ok ({ st with jobs := jobs }, true)
  else Except.ok (st, false)

/-- `TaskScheduler.get_job` (task_scheduler.py lines 751-764). -/
def get_job (st : SchedulerState) (job_id : String) : Option Job :=
  st.jobs.find? (fun j => j.id == job_id)

/-- The `add_job` arguments used by `start_auto_execution`
(task_scheduler.py lines 509-518). -/
def autoExecutionArgs (interval : Nat) : AddJobArgs :=
  { id := "auto_execute_pending_tasks"
    name := some "自动执行待处理任务"
    trigger := TriggerArg.str "interval" interval
    misfire_grace_time := some 60
    coalesce := some true
    max_instances := some 1 }

/-- `TaskScheduler.start` (task_scheduler.py lines 446-484): raises
`RuntimeError` ("调度器已经在运行中") when already running; otherwise marks
the scheduler running and, when auto-execution is configured, registers the
auto-execution job through `start_auto_execution`/`add_job` as a side
effect. Returns `True` on success. -/
def start (st : SchedulerState) : Except SchedulerError (SchedulerState × Bool) :=
  if st.is_running then Except.error SchedulerError.alreadyRunning
  else if st.auto_execution_enabled then
    match add_job { st with is_running := true }
        (autoExecutionArgs st.auto_execution_interval) with
    | Except.ok (st2, some job) =>
      Except.ok ({ st2 with auto_execution_job_id := some job.id }, true)
    | Except.ok (st2, none) => Except.ok (st2, true)
    | Except.error _ => Except.ok ({ st with is_running := true }, true)
  else Except.ok ({ st with is_running := true }, true)

/-! ## Auxiliary predicates and concrete instances used by the theorems -/

/-- Whether one per-item attempt counts as a failure for the executor:
a result whose status is not success, or an unexpected exception. -/
def attemptFails : AttemptOutcome → Bool
  | .result r => !(r.status == CrawlStatus.success)
  | .exn _ => true

/-- The effect of one all-failing pass on a single store row: a row
matching the pending query gets its `retry_count` incremented, every other
row is untouched. -/
def failEffect (t : Task) : Task :=
  if pendingQuery t then t.increment_retry else t

/-- The effect of `n` all-failing passes on a single store row. -/
def failEffectN : Nat → Task → Task
  | 0, t => t
  | n + 1, t => failEffectN n (failEffect t)

/-- A task as created by `TaskService.create_task` with `total_num = 1`
(status defaults to the string "pending", models/task.py lines 39-46). -/
def freshUnitTask : Task :=
  { id := 1
    url := "http://example.com"
    method := "GET"
    body := none
    total_num := 1
    visited_num := 0
    status := "pending"
    timeout := 30
    retry_count := 0 }

/-- The executor step on `freshUnitTask` when `crawl_and_save` reports
success and the record is stored. -/
def freshUnitStep : ItemStep :=
  execTaskStep TaskStatistics.init freshUnitTask
    (AttemptOutcome.result ⟨CrawlStatus.success, true, none⟩) 0

/-- A pending task with `total_num = 3`. -/
def threeUnitTask : Task :=
  { id := 2
    url := "http://example.org"
    method := "GET"
    body := none
    total_num := 3
    visited_num := 0
    status := "pending"
    timeout := 30
    retry_count := 0 }

/-- A `crawl_and_save` result whose crawl succeeded but whose database save
failed (`saved=False`, crawler_service.py lines 526-528): zero records were
stored for the call. -/
def successNotSaved : CrawlResult :=
  { status := CrawlStatus.success, saved := false, error := none }

/-- An oracle under which every attempt raises an unexpected exception. -/
def failOracle : Task → AttemptOutcome :=
  fun _ => AttemptOutcome.exn "network error"

/-- A completed row: counts reached and status updated. -/
def doneTask : Task :=
  { id := 3
    url := "http://example.net"
    method := "GET"
    body := none
    total_num := 2
    visited_num := 2
    status := "completed"
    timeout := 30
    retry_count := 0 }

/-- A registered job handle used by the job-management theorems. -/
def jobA : Job :=
  { id := "job_a"
    name := some "job a"
    trigger := some (TriggerSpec.interval 10)
    misfire_grace_time := none
    coalesce := none
    max_instances := none
    paused := false }

/-- A running scheduler with `jobA` registered. -/
def runningSched : SchedulerState :=
  { is_running := true
    jobs := [jobA]
    auto_execution_enabled := false
    auto_execution_interval := 30
    auto_execution_job_id := none }

/-- A freshly constructed scheduler (not yet started, auto-execution off). -/
def createdSched : SchedulerState :=
  { is_running := false
    jobs := []
    auto_execution_enabled := false
    auto_execution_interval := 30
    auto_execution_job_id := none }

/-- `createdSched` after a successful `start()`. -/
def startedSched : SchedulerState :=
  { is_running := true
    jobs := []
    auto_execution_enabled := false
    auto_execution_interval := 30
    auto_execution_job_id := none }

/-- An `add_job` argument record reusing the already-registered id. -/
def dupArgs : AddJobArgs :=
  { id := "job_a"
    name := some "duplicate"
    trigger := TriggerArg.inst TriggerSpec.date
    misfire_grace_time := none
    coalesce := none
    max_instances := none }

/-- An `add_job` argument record with a fresh id and a valid trigger. -/
def freshArgs : AddJobArgs :=
  { id := "my_job"
    name := some "my job"
    trigger := TriggerArg.str "interval" 5
    misfire_grace_time := none
    coalesce := none
    max_instances := none }

/-! ## Theorems -/

/-- `_add_to_history` only touches the history buffer: every counter and
timestamp field is unchanged. -/
theorem add_to_history_counters (s : TaskStatistics) (jid : String)
    (jn : Option String) (status : String) (t : Nat) (details : Option String) :
    (s.add_to_history jid jn status t details).success_count = s.success_count ∧
    (s.add_to_history jid jn status t details).failure_count = s.failure_count ∧
    (s.add_to_history jid jn status t details).skipped_count = s.skipped_count ∧
    (s.add_to_history jid jn status t details).total_executions = s.total_executions ∧
    (s.add_to_history jid jn status t details).last_execution_time = s.last_execution_time ∧
    (s.add_to_history jid jn status t details).last_success_time = s.last_success_time ∧
    (s.add_to_history jid jn status t details).last_failure_time = s.last_failure_time := by
  refine ⟨rfl, rfl, rfl, rfl, rfl, rfl, rfl⟩

/-- Every statistics operation preserves the counter invariant. -/
theorem statsInv_applyStatOp (s : TaskStatistics) (op : StatOp) (h : statsInv s) :
    statsInv (applyStatOp s op) := by
  cases op <;>
    simp only [applyStatOp, TaskStatistics.record_success, TaskStatistics.record_failure,
      TaskStatistics.record_skipped, TaskStatistics.reset, TaskStatistics.add_to_history,
      TaskStatistics.init, statsInv] at h ⊢ <;>
    omega

/-- The counter invariant is preserved along any operation sequence. -/
theorem statsInv_foldl (ops : List StatOp) (s : TaskStatistics) (h : statsInv s) :
    statsInv (ops.foldl applyStatOp s) := by
  induction ops generalizing s with
  | nil => exact h
  | cons op rest ih => exact ih (applyStatOp s op) (statsInv_applyStatOp s op h)

/-- C1: after any finite sequence of `record_success`, `record_failure`,
`record_skipped` and `reset` operations starting from a fresh
`TaskStatistics` instance, `total_executions` equals
`success_count + failure_count + skipped_count`. -/
theorem taskStatistics_total_eq_sum (ops : List StatOp) :
    (runStatOps ops).total_executions =
      (runStatOps ops).success_count + (runStatOps ops).failure_count +
        (runStatOps ops).skipped_count := by
  have h0 : statsInv TaskStatistics.init := by
    simp [statsInv, TaskStatistics.init]
  exact statsInv_foldl ops TaskStatistics.init h0

/-- C9: every rate accessor of a `TaskStatistics` state with
`total_executions == 0` returns exactly 0, so computing statistics never
divides by zero. -/
theorem rates_zero_of_no_executions (s : TaskStatistics)
    (h : s.total_executions = 0) :
    s.calculate_success_rate = 0 ∧ s.calculate_failure_rate = 0 ∧
      s.calculate_skipped_rate = 0 := by
  refine ⟨?_, ?_, ?_⟩ <;>
    simp [TaskStatistics.calculate_success_rate, TaskStatistics.calculate_failure_rate,
      TaskStatistics.calculate_skipped_rate, h]

/-- Concrete witness for the zero-rate theorem: the fresh instance. -/
theorem rates_zero_of_no_executions_witness :
    TaskStatistics.init.total_executions = 0 ∧
      (TaskStatistics.init.calculate_success_rate = 0 ∧
        TaskStatistics.init.calculate_failure_rate = 0 ∧
        TaskStatistics.init.calculate_skipped_rate = 0) :=
  ⟨rfl, rates_zero_of_no_executions TaskStatistics.init rfl⟩

/-- C10: `record_skipped` increments `skipped_count` and `total_executions`
and updates `last_execution_time`, but leaves `last_success_time` and
`last_failure_time` unchanged. -/
theorem record_skipped_frame (s : TaskStatistics) (jid : String)
    (jn : Option String) (reason : Option String) (t : Nat) :
    (s.record_skipped jid jn reason t).skipped_count = s.skipped_count + 1 ∧
    (s.record_skipped jid jn reason t).total_executions = s.total_executions + 1 ∧
    (s.record_skipped jid jn reason t).last_execution_time = some t ∧
    (s.record_skipped jid jn reason t).last_success_time = s.last_success_time ∧
    (s.record_skipped jid jn reason t).last_failure_time = s.last_failure_time := by
  refine ⟨rfl, rfl, rfl, rfl, rfl⟩

/-- C2 counterexample: after one successful attempt on a freshly created
task with `total_num = 1`, the count comparison
(`visited_num >= total_num` and `total_num > 0`) holds, yet the completion
check the executor uses (`Task.is_completed`, a `status == 'completed'`
test) is false, the completion log line is not emitted, and the
all-complete check (`Task.is_pending`) still counts the task as pending —
so the code's completion checks are not equivalent to the count
comparison at this reachable state. -/
theorem is_completed_ne_count_comparison :
    specCountComplete freshUnitStep.task = true ∧
    freshUnitStep.task.is_completed = false ∧
    freshUnitStep.completionLogged = false ∧
    freshUnitStep.task.is_pending = true ∧
    completedQuery freshUnitStep.task = true := by
  refine ⟨rfl, rfl, rfl, rfl, rfl⟩

/-- C2 (amended): the service-layer completed-task query selects exactly
the tasks with `visited_num >= total_num` and `total_num > 0` (the spec's
count comparison), but the per-task completion check used by the executor
(`Task.is_completed`) and the all-complete check used before the summary
report (`Task.is_pending`) test the `status` string field, which is
independent of the counts and not equivalent to the count comparison. -/
theorem completion_checks_characterization :
    (∀ t : Task, completedQuery t = true ↔
        (t.total_num ≤ t.visited_num ∧ 0 < t.total_num)) ∧
    (∀ t : Task, completedQuery t = specCountComplete t) ∧
    (∀ t : Task, t.is_completed = true ↔ t.status = "completed") ∧
    (∀ t : Task, t.is_pending = true ↔ t.status = "pending") := by
  refine ⟨fun t => ?_, fun t => rfl, fun t => ?_, fun t => ?_⟩ <;>
    simp [completedQuery, Task.is_completed, Task.is_pending]

/-- C3 counterexample: on a call that reports status success but stored
zero records (the save failed), the executor still increments
`visited_num` by 1 — not by the number of records actually stored. -/
theorem visited_increment_ne_stored_records :
    (execTaskStep TaskStatistics.init threeUnitTask
        (AttemptOutcome.result successNotSaved) 0).task.visited_num =
      threeUnitTask.visited_num + 1 ∧
    successNotSaved.stored_records = 0 := by
  refine ⟨rfl, rfl⟩

/-- C3 (amended): whenever the `crawl_and_save` result reports status
success, the executor increments that item's `visited_num` by exactly 1,
independently of the number of records actually stored (which is 1 when
the save succeeded and 0 when it failed), and leaves `retry_count`
unchanged. -/
theorem visited_increment_on_success (stats : TaskStatistics) (t : Task)
    (r : CrawlResult) (now : Nat) (h : r.status = CrawlStatus.success) :
    (execTaskStep stats t (AttemptOutcome.result r) now).task.visited_num =
      t.visited_num + 1 ∧
    (execTaskStep stats t (AttemptOutcome.result r) now).task.retry_count =
      t.retry_count ∧
    (r.saved = true → r.stored_records = 1) ∧
    (r.saved = false → r.stored_records = 0) := by
  simp only [execTaskStep, h, CrawlResult.stored_records, beq_self_eq_true, if_true,
    Bool.true_and]
  refine ⟨rfl, rfl, fun hs => by simp [hs], fun hs => by simp [hs]⟩

/-- Concrete witness for the success-increment theorem. -/
theorem visited_increment_on_success_witness :
    (execTaskStep TaskStatistics.init threeUnitTask
        (AttemptOutcome.result ⟨CrawlStatus.success, true, none⟩) 0).task.visited_num =
      threeUnitTask.visited_num + 1 ∧
    (execTaskStep TaskStatistics.init threeUnitTask
        (AttemptOutcome.result ⟨CrawlStatus.success, true, none⟩) 0).task.retry_count =
      threeUnitTask.retry_count ∧
    ((⟨CrawlStatus.success, true, none⟩ : CrawlResult).saved = true →
      (⟨CrawlStatus.success, true, none⟩ : CrawlResult).stored_records = 1) ∧
    ((⟨CrawlStatus.success, true, none⟩ : CrawlResult).saved = false →
      (⟨CrawlStatus.success, true, none⟩ : CrawlResult).stored_records = 0) :=
  visited_increment_on_success TaskStatistics.init threeUnitTask
    ⟨CrawlStatus.success, true, none⟩ 0 rfl

/-- On a failing attempt the executor step is exactly an `increment_retry`
on the task together with one recorded statistics failure. -/
theorem execTaskStep_fail (stats : TaskStatistics) (t : Task) (o : AttemptOutcome)
    (now : Nat) (h : attemptFails o = true) :
    (execTaskStep stats t o now).task = t.increment_retry ∧
    (execTaskStep stats t o now).stats.failure_count = stats.failure_count + 1 := by
  cases o with
  | result r =>
    have hr : (r.status == CrawlStatus.success) = false := by
      simpa [attemptFails] using h
    refine ⟨?_, ?_⟩ <;>
      simp [execTaskStep, hr, TaskStatistics.record_failure, TaskStatistics.add_to_history]
  | exn msg =>
    refine ⟨rfl, ?_⟩
    simp [execTaskStep, TaskStatistics.record_failure, TaskStatistics.add_to_history]

/-- Bumping the retry counter does not change pending-query membership. -/
theorem pendingQuery_increment_retry (t : Task) :
    pendingQuery t.increment_retry = pendingQuery t := rfl

/-- A store with no pending row is a fixed point of the per-row failure
effect. -/
theorem map_failEffect_of_no_pending (store : List Task)
    (h : ∀ t ∈ store, pendingQuery t = false) : store.map failEffect = store := by
  induction store with
  | nil => rfl
  | cons t rest ih =>
    have ht := h t (List.mem_cons_self t rest)
    have hrest := ih (fun u hu => h u (List.mem_cons_of_mem t hu))
    simp [failEffect, ht, hrest]

/-- Under an all-failing oracle, the per-task loop maps every pending row
through `increment_retry` and leaves every other row untouched. -/
theorem runPassItems_store_allFail (oracle : Task → AttemptOutcome)
    (hfail : ∀ u, attemptFails (oracle u) = true) (now : Nat) :
    ∀ (store : List Task) (stats : TaskStatistics),
      (runPassItems oracle now store stats).store = store.map failEffect := by
  intro store
  induction store with
  | nil => intro stats; rfl
  | cons t rest ih =>
    intro stats
    by_cases hp : pendingQuery t = true
    · have hstep := execTaskStep_fail stats t (oracle t) now (hfail t)
      simp [runPassItems, hp, failEffect, hstep.1, ih]
    · simp [runPassItems, hp, failEffect, ih]

/-- Under an all-failing oracle, one full pass applies `failEffect` to
every store row (in both the empty-pending and the processing branch). -/
theorem pass_store_allFail (oracle : Task → AttemptOutcome)
    (hfail : ∀ u, attemptFails (oracle u) = true) (store : List Task)
    (stats : TaskStatistics) (lastReport : Option Nat) (now : Nat) :
    (execPendingTasksInternal store oracle stats lastReport now).store =
      store.map failEffect := by
  by_cases hp : (store.filter pendingQuery).isEmpty = true
  · have hnone : ∀ t ∈ store, pendingQuery t = false := by
      intro t ht
      have hnil : store.filter pendingQuery = [] := List.isEmpty_iff.mp hp
      have := List.filter_eq_nil_iff.mp hnil t ht
      simpa using this
    rw [map_failEffect_of_no_pending store hnone]
    simp only [execPendingTasksInternal, hp, if_true]
    split
    · split <;> rfl
    · rfl
  · rw [Bool.not_eq_true] at hp
    simp [execPendingTasksInternal, hp,
      runPassItems_store_allFail oracle hfail now store stats]

/-- On a pending row, `n` all-failing passes add exactly `n` to
`retry_count` and leave `visited_num` unchanged. -/
theorem failEffectN_pending (n : Nat) :
    ∀ t : Task, pendingQuery t = true →
      (failEffectN n t).retry_count = t.retry_count + n ∧
      (failEffectN n t).visited_num = t.visited_num := by
  induction n with
  | zero => intro t _; exact ⟨rfl, rfl⟩
  | succ n ih =>
    intro t hp
    have h1 : failEffect t = t.increment_retry := by simp [failEffect, hp]
    have hp2 : pendingQuery t.increment_retry = true := by
      rw [pendingQuery_increment_retry]; exact hp
    have hrec := ih t.increment_retry hp2
    constructor
    · show (failEffectN n (failEffect t)).retry_count = _
      rw [h1, hrec.1]
      show t.retry_count + 1 + n = t.retry_count + (n + 1)
      omega
    · show (failEffectN n (failEffect t)).visited_num = _
      rw [h1, hrec.2]
      rfl

/-- Under an all-failing oracle, `n` passes apply `failEffectN n` to every
store row. -/
theorem iteratePasses_store_allFail (oracle : Task → AttemptOutcome)
    (hfail : ∀ u, attemptFails (oracle u) = true) (now : Nat) :
    ∀ (n : Nat) (store : List Task) (stats : TaskStatistics)
      (lastReport : Option Nat),
      (iteratePasses oracle now n store stats lastReport).store =
        store.map (failEffectN n) := by
  intro n
  induction n with
  | zero =>
    intro store stats lr
    show store = store.map (failEffectN 0)
    have h : store.map (failEffectN 0) = store.map id :=
      List.map_congr_left (fun t _ => rfl)
    rw [h, List.map_id]
  | succ n ih =>
    intro store stats lr
    show (iteratePasses oracle now n _ _ _).store = _
    rw [ih, pass_store_allFail oracle hfail store stats lr now, List.map_map]
    exact List.map_congr_left (fun t _ => rfl)

/-- C4: on every failing fetch-and-save attempt (error result or unexpected
exception) the executor increments the item's `retry_count` by 1, leaves
`visited_num` unchanged, and records a statistics failure; the pass never
aborts on an item's failure (every row of the store is still processed,
pending rows getting exactly the retry bump and all other rows staying
untouched); hence after `n` all-failing passes a pending item has
`retry_count` increased by exactly `n` with `visited_num` unchanged. -/
theorem retry_accounting (oracle : Task → AttemptOutcome)
    (hfail : ∀ u, attemptFails (oracle u) = true) (store : List Task)
    (stats : TaskStatistics) (lastReport : Option Nat) (now : Nat) (n : Nat) :
    (∀ (s : TaskStatistics) (t : Task) (o : AttemptOutcome) (tm : Nat),
        attemptFails o = true →
        (execTaskStep s t o tm).task.retry_count = t.retry_count + 1 ∧
        (execTaskStep s t o tm).task.visited_num = t.visited_num ∧
        (execTaskStep s t o tm).stats.failure_count = s.failure_count + 1) ∧
    (execPendingTasksInternal store oracle stats lastReport now).store =
      store.map failEffect ∧
    (iteratePasses oracle now n store stats lastReport).store =
      store.map (failEffectN n) ∧
    (∀ t ∈ store, pendingQuery t = true →
        (failEffectN n t).retry_count = t.retry_count + n ∧
        (failEffectN n t).visited_num = t.visited_num) := by
  refine ⟨?_, ?_, ?_, ?_⟩
  · intro s t o tm h
    have hstep := execTaskStep_fail s t o tm h
    exact ⟨by rw [hstep.1]; rfl, by rw [hstep.1]; rfl, hstep.2⟩
  · exact pass_store_allFail oracle hfail store stats lastReport now
  · exact iteratePasses_store_allFail oracle hfail now n store stats lastReport
  · intro t _ hp
    exact failEffectN_pending n t hp

/-- Concrete witness for the retry-accounting theorem: one pending item,
an oracle that always raises, three passes. -/
theorem retry_accounting_witness :
    (∀ u, attemptFails (failOracle u) = true) ∧
    ((∀ (s : TaskStatistics) (t : Task) (o : AttemptOutcome) (tm : Nat),
        attemptFails o = true →
        (execTaskStep s t o tm).task.retry_count = t.retry_count + 1 ∧
        (execTaskStep s t o tm).task.visited_num = t.visited_num ∧
        (execTaskStep s t o tm).stats.failure_count = s.failure_count + 1) ∧
      (execPendingTasksInternal [threeUnitTask] failOracle TaskStatistics.init
          none 0).store = [threeUnitTask].map failEffect ∧
      (iteratePasses failOracle 0 3 [threeUnitTask] TaskStatistics.init
          none).store = [threeUnitTask].map (failEffectN 3) ∧
      (∀ t ∈ [threeUnitTask], pendingQuery t = true →
          (failEffectN 3 t).retry_count = t.retry_count + 3 ∧
          (failEffectN 3 t).visited_num = t.visited_num)) :=
  ⟨fun _ => rfl,
    retry_accounting failOracle (fun _ => rfl) [threeUnitTask]
      TaskStatistics.init none 0 3⟩

/-- C8: over a store in which no row satisfies
`visited_num < total_num and total_num > 0`, one executor pass returns 0
and mutates nothing — the store rows and the statistics are unchanged;
the all-complete summary report is emitted only when the 300-second
(5-minute) cooldown has elapsed, an emission stamps the cooldown with the
pass time, and a further pass within 300 seconds of an emission does not
emit again. -/
theorem idle_pass_no_mutation (store : List Task) (oracle : Task → AttemptOutcome)
    (stats : TaskStatistics) (lastReport : Option Nat) (now : Nat)
    (h : ∀ t ∈ store, pendingQuery t = false) :
    (execPendingTasksInternal store oracle stats lastReport now).count = 0 ∧
    (execPendingTasksInternal store oracle stats lastReport now).store = store ∧
    (execPendingTasksInternal store oracle stats lastReport now).stats = stats ∧
    ((execPendingTasksInternal store oracle stats lastReport now).reportEmitted = true →
      (lastReport = none ∨ ∃ lr, lastReport = some lr ∧ 300 < now - lr) ∧
      (execPendingTasksInternal store oracle stats lastReport now).lastReport = some now) ∧
    ((execPendingTasksInternal store oracle stats lastReport now).reportEmitted = false →
      (execPendingTasksInternal store oracle stats lastReport now).lastReport = lastReport) ∧
    (∀ (now2 : Nat) (stats2 : TaskStatistics) (oracle2 : Task → AttemptOutcome),
      (execPendingTasksInternal store oracle stats lastReport now).reportEmitted = true →
      now2 - now ≤ 300 →
      (execPendingTasksInternal store oracle2 stats2
        (execPendingTasksInternal store oracle stats lastReport now).lastReport
        now2).reportEmitted = false) := by
  have hnil : store.filter pendingQuery = [] :=
    List.filter_eq_nil_iff.mpr (fun a ha => by simp [h a ha])
  have hEmpty : (store.filter pendingQuery).isEmpty = true := by
    rw [hnil]; rfl
  by_cases hd : allSizedDone store = true
  · by_cases hs : shouldReport lastReport now = true
    · have hres : execPendingTasksInternal store oracle stats lastReport now =
          ⟨store, stats, some now, 0, true⟩ := by
        simp [execPendingTasksInternal, hEmpty, hd, hs]
      rw [hres]
      refine ⟨rfl, rfl, rfl, fun _ => ⟨?_, rfl⟩, ?_, ?_⟩
      · cases lastReport with
        | none => exact Or.inl rfl
        | some lr =>
          refine Or.inr ⟨lr, rfl, ?_⟩
          simpa [shouldReport] using hs
      · intro hfalse
        exact absurd hfalse (by simp)
      · intro now2 stats2 oracle2 _ hle
        have hs2 : shouldReport (some now) now2 = false := by
          simp only [shouldReport, decide_eq_false_iff_not]
          omega
        have hres2 : execPendingTasksInternal store oracle2 stats2 (some now) now2 =
            ⟨store, stats2, some now, 0, false⟩ := by
          simp [execPendingTasksInternal, hEmpty, hd, hs2]
        show (execPendingTasksInternal store oracle2 stats2 (some now) now2).reportEmitted = false
        rw [hres2]
    · rw [Bool.not_eq_true] at hs
      have hres : execPendingTasksInternal store oracle stats lastReport now =
          ⟨store, stats, lastReport, 0, false⟩ := by
        simp [execPendingTasksInternal, hEmpty, hd, hs]
      rw [hres]
      refine ⟨rfl, rfl, rfl, ?_, fun _ => rfl, ?_⟩
      · intro hfalse
        exact absurd hfalse (by simp)
      · intro now2 stats2 oracle2 hfalse _
        exact absurd hfalse (by simp)
  · rw [Bool.not_eq_true] at hd
    have hres : execPendingTasksInternal store oracle stats lastReport now =
        ⟨store, stats, lastReport, 0, false⟩ := by
      simp [execPendingTasksInternal, hEmpty, hd]
    rw [hres]
    refine ⟨rfl, rfl, rfl, ?_, fun _ => rfl, ?_⟩
    · intro hfalse
      exact absurd hfalse (by simp)
    · intro now2 stats2 oracle2 hfalse _
      exact absurd hfalse (by simp)

/-- Concrete witness for the idle-pass theorem: a store holding one
finished row, a pass at time 0 with no prior report. -/
theorem idle_pass_no_mutation_witness :
    (∀ t ∈ [doneTask], pendingQuery t = false) ∧
    ((execPendingTasksInternal [doneTask] failOracle TaskStatistics.init none 0).count = 0 ∧
     (execPendingTasksInternal [doneTask] failOracle TaskStatistics.init none 0).store = [doneTask] ∧
     (execPendingTasksInternal [doneTask] failOracle TaskStatistics.init none 0).stats = TaskStatistics.init ∧
     ((execPendingTasksInternal [doneTask] failOracle TaskStatistics.init none 0).reportEmitted = true →
       ((none : Option Nat) = none ∨ ∃ lr, (none : Option Nat) = some lr ∧ 300 < 0 - lr) ∧
       (execPendingTasksInternal [doneTask] failOracle TaskStatistics.init none 0).lastReport = some 0) ∧
     ((execPendingTasksInternal [doneTask] failOracle TaskStatistics.init none 0).reportEmitted = false →
       (execPendingTasksInternal [doneTask] failOracle TaskStatistics.init none 0).lastReport = none) ∧
     (∀ (now2 : Nat) (stats2 : TaskStatistics) (oracle2 : Task → AttemptOutcome),
       (execPendingTasksInternal [doneTask] failOracle TaskStatistics.init none 0).reportEmitted = true →
       now2 - 0 ≤ 300 →
       (execPendingTasksInternal [doneTask] oracle2 stats2
         (execPendingTasksInternal [doneTask] failOracle TaskStatistics.init none 0).lastReport
         now2).reportEmitted = false)) :=
  ⟨by decide,
    idle_pass_no_mutation [doneTask] failOracle TaskStatistics.init none 0 (by decide)⟩

/-- C5 counterexample: on a running scheduler with id "job_a" registered,
`add_job` with the same id does not raise a duplicate-id error to the
caller: the underlying conflicting-id exception is caught inside the
method and the call returns `None`, with the job store — and hence the
pre-existing job, its trigger and attributes — unchanged. -/
theorem add_job_duplicate_returns_none_cex :
    add_job runningSched dupArgs = Except.ok (runningSched, none) ∧
    add_job runningSched dupArgs ≠ Except.error SchedulerError.duplicateJobId ∧
    get_job runningSched "job_a" = some jobA := by
  have h1 : add_job runningSched dupArgs = Except.ok (runningSched, none) := by rfl
  refine ⟨h1, ?_, rfl⟩
  rw [h1]
  intro hcontra
  exact Except.noConfusion hcontra

/-- C5 (amended): on a running scheduler, `add_job` with an id that is
already registered fails by returning `None` (the underlying duplicate-id
error is caught and logged inside the method, not raised to the caller),
and the scheduler state — including the pre-existing job with that id, its
trigger and all its attributes — is unchanged. -/
theorem add_job_duplicate_id (st : SchedulerState) (args : AddJobArgs)
    (hrun : st.is_running = true) (hdup : st.hasJob args.id = true) :
    add_job st args = Except.ok (st, none) := by
  unfold add_job
  rw [hrun]
  simp only [Bool.not_true, Bool.false_eq_true, if_false]
  cases hres : resolveTrigger args.trigger with
  | none => rfl
  | some trig => simp [hdup]

/-- Concrete witness for the duplicate-id theorem. -/
theorem add_job_duplicate_id_witness :
    add_job runningSched dupArgs = Except.ok (runningSched, none) :=
  add_job_duplicate_id runningSched dupArgs rfl rfl

/-- C6 counterexample: with id "missing" absent from the registry, none of
`remove_job`, `pause_job`, `resume_job`, `modify_job` raises a
job-not-found error to the caller: each catches the underlying lookup
error and returns `False`, leaving the state unchanged. -/
theorem job_ops_missing_id_cex :
    remove_job runningSched "missing" = Except.ok (runningSched, false) ∧
    remove_job runningSched "missing" ≠ Except.error SchedulerError.jobNotFound ∧
    pause_job runningSched "missing" = Except.ok (runningSched, false) ∧
    pause_job runningSched "missing" ≠ Except.error SchedulerError.jobNotFound ∧
    resume_job runningSched "missing" = Except.ok (runningSched, false) ∧
    resume_job runningSched "missing" ≠ Except.error SchedulerError.jobNotFound ∧
    modify_job runningSched "missing" (fun j => j) = Except.ok (runningSched, false) ∧
    modify_job runningSched "missing" (fun j => j) ≠ Except.error SchedulerError.jobNotFound := by
  have hr : remove_job runningSched "missing" = Except.ok (runningSched, false) := rfl
  have hp : pause_job runningSched "missing" = Except.ok (runningSched, false) := rfl
  have hs : resume_job runningSched "missing" = Except.ok (runningSched, false) := rfl
  have hm : modify_job runningSched "missing" (fun j => j) =
      Except.ok (runningSched, false) := rfl
  refine ⟨hr, ?_, hp, ?_, hs, ?_, hm, ?_⟩
  · rw [hr]
    intro hcontra
    exact Except.noConfusion hcontra
  · rw [hp]
    intro hcontra
    exact Except.noConfusion hcontra
  · rw [hs]
    intro hcontra
    exact Except.noConfusion hcontra
  · rw [hm]
    intro hcontra
    exact Except.noConfusion hcontra

/-- C6 (amended): for every job id that is not currently registered, each
of `remove_job`, `pause_job`, `resume_job` and `modify_job` fails by
returning `False` to the caller (the underlying lookup error is caught and
logged inside the method, not raised), leaving the scheduler state
unchanged. -/
theorem job_ops_missing_id (st : SchedulerState) (job_id : String)
    (changes : Job → Job) (h : st.hasJob job_id = false) :
    remove_job st job_id = Except.ok (st, false) ∧
    pause_job st job_id = Except.ok (st, false) ∧
    resume_job st job_id = Except.ok (st, false) ∧
    modify_job st job_id changes = Except.ok (st, false) := by
  refine ⟨?_, ?_, ?_, ?_⟩ <;>
    simp [remove_job, pause_job, resume_job, modify_job, h]

/-- Concrete witness for the missing-id theorem. -/
theorem job_ops_missing_id_witness :
    remove_job runningSched "missing" = Except.ok (runningSched, false) ∧
    pause_job runningSched "missing" = Except.ok (runningSched, false) ∧
    resume_job runningSched "missing" = Except.ok (runningSched, false) ∧
    modify_job runningSched "missing" (fun j => j) = Except.ok (runningSched, false) :=
  job_ops_missing_id runningSched "missing" (fun j => j) rfl

/-- A successful `add_job` never changes the running flag. -/
theorem add_job_ok_is_running (st st2 : SchedulerState) (args : AddJobArgs)
    (jo : Option Job) (h : add_job st args = Except.ok (st2, jo)) :
    st2.is_running = st.is_running := by
  unfold add_job at h
  by_cases hr : st.is_running = true
  · rw [hr] at h
    simp only [Bool.not_true, Bool.false_eq_true, if_false] at h
    cases htr : resolveTrigger args.trigger with
    | none =>
      rw [htr] at h
      injection h with h1
      injection h1 with h2 h3
      rw [← h2]
    | some trig =>
      rw [htr] at h
      by_cases hd : st.hasJob args.id = true
      · rw [hd] at h
        simp only [if_true] at h
        injection h with h1
        injection h1 with h2 h3
        rw [← h2]
      · rw [Bool.not_eq_true] at hd
        rw [hd] at h
        simp only [Bool.false_eq_true, if_false] at h
        injection h with h1
        injection h1 with h2 h3
        rw [← h2]
        exact hr.symm
  · rw [Bool.not_eq_true] at hr
    rw [hr] at h
    exact absurd h (by simp)

/-- A successful `start` leaves the scheduler in the running state. -/
theorem start_ok_is_running (st st' : SchedulerState) (b : Bool)
    (h : start st = Except.ok (st', b)) : st'.is_running = true := by
  unfold start at h
  split at h
  · exact absurd h (by simp)
  · split at h
    · split at h
      · next st2 job heq =>
        have hrun2 := add_job_ok_is_running _ _ _ _ heq
        injection h with h1
        injection h1 with h2 h3
        rw [← h2]
        exact hrun2
      · next st2 heq =>
        have hrun2 := add_job_ok_is_running _ _ _ _ heq
        injection h with h1
        injection h1 with h2 h3
        rw [← h2]
        exact hrun2
      · next e heq =>
        injection h with h1
        injection h1 with h2 h3
        rw [← h2]
    · injection h with h1
      injection h1 with h2 h3
      rw [← h2]

/-- On a running scheduler, `add_job` with a valid trigger and a fresh id
registers the job and returns its handle. -/
theorem add_job_success (st : SchedulerState) (args : AddJobArgs)
    (trig : Option TriggerSpec) (hrun : st.is_running = true)
    (htrig : resolveTrigger args.trigger = some trig)
    (hfresh : st.hasJob args.id = false) :
    add_job st args = Except.ok
      ({ st with jobs := st.jobs ++
          [⟨args.id, args.name, trig, args.misfire_grace_time, args.coalesce,
            args.max_instances, false⟩] },
        some ⟨args.id, args.name, trig, args.misfire_grace_time, args.coalesce,
          args.max_instances, false⟩) := by
  unfold add_job
  rw [hrun, htrig]
  simp [hfresh]

/-- C7: `add_job` called while the scheduler is not running raises the
runtime error the spec names `SchedulerNotRunningError`, for every
argument combination; and after `start()` succeeds, the same call — its id
still fresh and its trigger valid — succeeds and returns the Job handle
carrying that id. -/
theorem addJob_requires_running_then_succeeds :
    (∀ (st : SchedulerState) (args : AddJobArgs), st.is_running = false →
      add_job st args = Except.error SchedulerError.schedulerNotRunning) ∧
    (∀ (st st' : SchedulerState) (b : Bool) (args : AddJobArgs)
        (trig : Option TriggerSpec),
      start st = Except.ok (st', b) →
      resolveTrigger args.trigger = some trig →
      st'.hasJob args.id = false →
      ∃ j : Job, add_job st' args =
          Except.ok ({ st' with jobs := st'.jobs ++ [j] }, some j) ∧
        j.id = args.id) := by
  constructor
  · intro st args h
    unfold add_job
    rw [h]
    rfl
  · intro st st' b args trig hstart htrig hfresh
    have hrun := start_ok_is_running st st' b hstart
    exact ⟨_, add_job_success st' args trig hrun htrig hfresh, rfl⟩

/-- Concrete witness: `add_job` on the not-yet-started scheduler raises;
after `start()` the same call succeeds with the "my_job" handle. -/
theorem addJob_requires_running_then_succeeds_witness :
    add_job createdSched freshArgs = Except.error SchedulerError.schedulerNotRunning ∧
    (∃ j : Job, add_job startedSched freshArgs =
        Except.ok ({ startedSched with jobs := startedSched.jobs ++ [j] }, some j) ∧
      j.id = "my_job") :=
  ⟨addJob_requires_running_then_succeeds.1 createdSched freshArgs rfl,
    addJob_requires_running_then_succeeds.2 createdSched startedSched true
      freshArgs (some (TriggerSpec.interval 5)) rfl rfl rfl⟩

end DC
